import Mathlib

/-!
Shallow embedding of smoldot's `lib/src/chain/chain_information.rs`: the
chain-state data model (owning and borrowing representations), the
validated-wrapper types, the coherence-validation algorithm and its error
taxonomy, together with theorems settling the specification's claims about
them.

Machine integers (`u64`) are modelled as `Nat`: the algorithm only compares
them and never performs arithmetic, so no overflow can occur and the
embedding is faithful. `Vec`/slices/iterators are all modelled as `List`,
`Box` is transparent, and `Result<(), E>` becomes `Except E Unit`.
-/

deriving instance DecidableEq for Except

namespace ChainInfo

/-- Modelled from the spec: an Aura authority, an (id, weight) pair (§3);
the concrete authority type lives in the external `header` module. -/
structure AuraAuthority where
  public_key : List Nat
  weight : Nat
  deriving DecidableEq

/-- Modelled from the spec: a Babe authority, an (id, weight) pair (§3);
the concrete authority type lives in the external `header` module. -/
structure BabeAuthority where
  public_key : List Nat
  weight : Nat
  deriving DecidableEq

/-- Modelled from the spec: a Grandpa authority, an (id, weight) pair (§3);
the concrete authority type lives in the external `header` module. -/
structure GrandpaAuthority where
  public_key : List Nat
  weight : Nat
  deriving DecidableEq

/-- Modelled from the spec: the enumerated slot-type policy
(`header::BabeAllowedSlots`, external to this core). -/
inductive BabeAllowedSlots where
  | PrimarySlots
  | PrimaryAndSecondaryPlainSlots
  | PrimaryAndSecondaryVrfSlots
  deriving DecidableEq

/-- The source's `NonZero<u64>`: a positive integer. -/
abbrev NonZeroU64 := {n : Nat // n ≠ 0}

/-- Modelled from the spec: the Babe epoch-change announcement a header
digest may embed — authorities and randomness (§6); extracted by the
external header digest accessor. -/
structure BabeEpochChangeDigest where
  authorities : List BabeAuthority
  randomness : List Nat
  deriving DecidableEq

/-- Modelled from the spec: the header digest accessor capability (§6) —
the boolean/optional-value queries this core consumes. `babe_pre_runtime`
carries the embedded slot number when present; `babe_epoch_information`
carries the announcement plus a flag for a configuration change. -/
structure Digest where
  aura_pre_runtime : Bool
  aura_seal : Bool
  has_any_babe : Bool
  babe_pre_runtime : Option Nat
  babe_seal : Bool
  has_any_aura : Bool
  babe_epoch_information : Option (BabeEpochChangeDigest × Bool)
  deriving DecidableEq

/-- Modelled from the spec: the finalized block header, reduced to the
fields this core consumes — its number and the digest queries (§1, §6). -/
structure Header where
  number : Nat
  digest : Digest
  deriving DecidableEq

/-- Modelled from the spec: the borrowing view of a header
(`header::HeaderRef`), field-for-field parallel to `Header`. -/
structure HeaderRef where
  number : Nat
  digest : Digest
  deriving DecidableEq

/-- Modelled from the spec: `From<&Header> for HeaderRef` (lossless). -/
def HeaderRef.ofHeader (h : Header) : HeaderRef :=
  { number := h.number, digest := h.digest }

/-- Modelled from the spec: `From<HeaderRef> for Header` (lossless). -/
def HeaderRef.toHeader (h : HeaderRef) : Header :=
  { number := h.number, digest := h.digest }

/-- `BabeEpochInformation` (chain_information.rs:219). -/
structure BabeEpochInformation where
  epoch_index : Nat
  start_slot_number : Option Nat
  authorities : List BabeAuthority
  randomness : List Nat
  c : Nat × Nat
  allowed_slots : BabeAllowedSlots
  deriving DecidableEq

/-- `BabeEpochInformationRef` (chain_information.rs:519). -/
structure BabeEpochInformationRef where
  epoch_index : Nat
  start_slot_number : Option Nat
  authorities : List BabeAuthority
  randomness : List Nat
  c : Nat × Nat
  allowed_slots : BabeAllowedSlots
  deriving DecidableEq

/-- `From<&BabeEpochInformation> for BabeEpochInformationRef`
(chain_information.rs:550). -/
def BabeEpochInformationRef.ofInfo (info : BabeEpochInformation) :
    BabeEpochInformationRef :=
  { epoch_index := info.epoch_index
    start_slot_number := info.start_slot_number
    authorities := info.authorities
    randomness := info.randomness
    c := info.c
    allowed_slots := info.allowed_slots }

/-- `From<BabeEpochInformationRef> for BabeEpochInformation`
(chain_information.rs:259); the per-element `Into` on authorities is the
identity in this embedding. -/
def BabeEpochInformation.ofRef (info : BabeEpochInformationRef) :
    BabeEpochInformation :=
  { epoch_index := info.epoch_index
    start_slot_number := info.start_slot_number
    authorities := info.authorities.map (fun a => a)
    randomness := info.randomness
    c := info.c
    allowed_slots := info.allowed_slots }

/-- `ChainInformationConsensus` (chain_information.rs:166). -/
inductive ChainInformationConsensus where
  | Unknown
  | Aura (finalized_authorities_list : List AuraAuthority)
      (slot_duration : NonZeroU64)
  | Babe (slots_per_epoch : NonZeroU64)
      (finalized_block_epoch_information : Option BabeEpochInformation)
      (finalized_next_epoch_transition : BabeEpochInformation)
  deriving DecidableEq

/-- `ChainInformationConsensusRef` (chain_information.rs:491). -/
inductive ChainInformationConsensusRef where
  | Unknown
  | Aura (finalized_authorities_list : List AuraAuthority)
      (slot_duration : NonZeroU64)
  | Babe (slots_per_epoch : NonZeroU64)
      (finalized_block_epoch_information : Option BabeEpochInformationRef)
      (finalized_next_epoch_transition : BabeEpochInformationRef)
  deriving DecidableEq

/-- `ChainInformationFinality` (chain_information.rs:274). -/
inductive ChainInformationFinality where
  | Outsourced
  | Grandpa (after_finalized_block_authorities_set_id : Nat)
      (finalized_triggered_authorities : List GrandpaAuthority)
      (finalized_scheduled_change : Option (Nat × List GrandpaAuthority))
  deriving DecidableEq

/-- `ChainInformationFinalityRef` (chain_information.rs:565). -/
inductive ChainInformationFinalityRef where
  | Outsourced
  | Grandpa (after_finalized_block_authorities_set_id : Nat)
      (finalized_triggered_authorities : List GrandpaAuthority)
      (finalized_scheduled_change : Option (Nat × List GrandpaAuthority))
  deriving DecidableEq

/-- `ChainInformation` (chain_information.rs:120). -/
structure ChainInformation where
  finalized_block_header : Header
  consensus : ChainInformationConsensus
  finality : ChainInformationFinality
  deriving DecidableEq

/-- `ChainInformationRef` (chain_information.rs:333). -/
structure ChainInformationRef where
  finalized_block_header : HeaderRef
  consensus : ChainInformationConsensusRef
  finality : ChainInformationFinalityRef
  deriving DecidableEq

/-- `From<&ChainInformationFinality> for ChainInformationFinalityRef`
(chain_information.rs:582). -/
def ChainInformationFinalityRef.ofFinality (finality : ChainInformationFinality) :
    ChainInformationFinalityRef :=
  match finality with
  | ChainInformationFinality.Outsourced => ChainInformationFinalityRef.Outsourced
  | ChainInformationFinality.Grandpa after_finalized_block_authorities_set_id
      finalized_triggered_authorities finalized_scheduled_change =>
    ChainInformationFinalityRef.Grandpa after_finalized_block_authorities_set_id
      finalized_triggered_authorities
      (finalized_scheduled_change.map (fun p => (p.1, p.2)))

/-- `From<ChainInformationFinalityRef> for ChainInformationFinality`
(chain_information.rs:314). -/
def ChainInformationFinality.ofRef (finality : ChainInformationFinalityRef) :
    ChainInformationFinality :=
  match finality with
  | ChainInformationFinalityRef.Outsourced => ChainInformationFinality.Outsourced
  | ChainInformationFinalityRef.Grandpa after_finalized_block_authorities_set_id
      finalized_triggered_authorities finalized_scheduled_change =>
    ChainInformationFinality.Grandpa after_finalized_block_authorities_set_id
      finalized_triggered_authorities
      (finalized_scheduled_change.map (fun p => (p.1, p.2)))

/-- The consensus arm of `From<&ChainInformation> for ChainInformationRef`
(chain_information.rs:461-483), extracted as its own definition. -/
def ChainInformationConsensusRef.ofConsensus (consensus : ChainInformationConsensus) :
    ChainInformationConsensusRef :=
  match consensus with
  | ChainInformationConsensus.Unknown => ChainInformationConsensusRef.Unknown
  | ChainInformationConsensus.Aura finalized_authorities_list slot_duration =>
    ChainInformationConsensusRef.Aura finalized_authorities_list slot_duration
  | ChainInformationConsensus.Babe slots_per_epoch
      finalized_block_epoch_information finalized_next_epoch_transition =>
    ChainInformationConsensusRef.Babe slots_per_epoch
      (finalized_block_epoch_information.map BabeEpochInformationRef.ofInfo)
      (BabeEpochInformationRef.ofInfo finalized_next_epoch_transition)

/-- The consensus arm of `From<ChainInformationRef> for ChainInformation`
(chain_information.rs:135-158), extracted as its own definition; the
per-element `Into` on authorities is the identity in this embedding. -/
def ChainInformationConsensus.ofRef (consensus : ChainInformationConsensusRef) :
    ChainInformationConsensus :=
  match consensus with
  | ChainInformationConsensusRef.Unknown => ChainInformationConsensus.Unknown
  | ChainInformationConsensusRef.Aura finalized_authorities_list slot_duration =>
    ChainInformationConsensus.Aura (finalized_authorities_list.map (fun a => a))
      slot_duration
  | ChainInformationConsensusRef.Babe slots_per_epoch
      finalized_block_epoch_information finalized_next_epoch_transition =>
    ChainInformationConsensus.Babe slots_per_epoch
      (finalized_block_epoch_information.map BabeEpochInformation.ofRef)
      (BabeEpochInformation.ofRef finalized_next_epoch_transition)

/-- `From<&ChainInformation> for ChainInformationRef`
(chain_information.rs:457). -/
def ChainInformationRef.ofChainInformation (info : ChainInformation) :
    ChainInformationRef :=
  { finalized_block_header := HeaderRef.ofHeader info.finalized_block_header
    consensus := ChainInformationConsensusRef.ofConsensus info.consensus
    finality := ChainInformationFinalityRef.ofFinality info.finality }

/-- `From<ChainInformationRef> for ChainInformation`
(chain_information.rs:131). -/
def ChainInformation.ofRef (info : ChainInformationRef) : ChainInformation :=
  { finalized_block_header := HeaderRef.toHeader info.finalized_block_header
    consensus := ChainInformationConsensus.ofRef info.consensus
    finality := ChainInformationFinality.ofRef info.finality }

/-- `BabeValidityError` (chain_information.rs:632). -/
inductive BabeValidityError where
  | InvalidConstant
  deriving DecidableEq

/-- `ValidityError` (chain_information.rs:603). -/
inductive ValidityError where
  | ConsensusAlgorithmMismatch
  | UnexpectedBabeSlotStartNumber
  | MissingBabeSlotStartNumber
  | UnexpectedBabeFinalizedEpoch
  | NoBabeFinalizedEpoch
  | HeaderBabeSlotInferiorToEpochStartSlot
  | BabeEpochInfoMismatch
  | ScheduledGrandPaChangeBeforeFinalized
  | FinalizedZeroButNonZeroAuthoritiesSetId
  | InvalidBabe (err : BabeValidityError)
  deriving DecidableEq

/-- `BabeEpochInformationRef::validate` (chain_information.rs:541). -/
def BabeEpochInformationRef.validate (info : BabeEpochInformationRef) :
    Except BabeValidityError Unit :=
  if info.c.1 > info.c.2 then Except.error BabeValidityError.InvalidConstant
  else Except.ok ()

/-- `BabeEpochInformation::validate` (chain_information.rs:254). -/
def BabeEpochInformation.validate (info : BabeEpochInformation) :
    Except BabeValidityError Unit :=
  (BabeEpochInformationRef.ofInfo info).validate

/-- The body of the `if let Some(finalized_block_epoch_information)` block of
`ChainInformationRef::validate` (chain_information.rs:368-410). -/
def babeFinalizedEpochChecks (finalized_block_header : HeaderRef)
    (finalized_block_epoch_information : BabeEpochInformationRef)
    (finalized_next_epoch_transition : BabeEpochInformationRef) :
    Except ValidityError Unit :=
  match finalized_block_epoch_information.validate with
  | Except.error err => Except.error (ValidityError.InvalidBabe err)
  | Except.ok () =>
    if finalized_block_header.number = 0 then
      Except.error ValidityError.UnexpectedBabeFinalizedEpoch
    else
      match finalized_block_epoch_information.start_slot_number with
      | some epoch_start_slot_number =>
        match
          (match finalized_block_header.digest.babe_pre_runtime with
           | some babe_preruntime_slot =>
             if finalized_block_header.number = 0 then
               Except.error ValidityError.ConsensusAlgorithmMismatch
             else if babe_preruntime_slot < epoch_start_slot_number then
               Except.error ValidityError.HeaderBabeSlotInferiorToEpochStartSlot
             else Except.ok ()
           | none =>
             if finalized_block_header.number ≠ 0 then
               Except.error ValidityError.ConsensusAlgorithmMismatch
             else Except.ok ())
        with
        | Except.error e => Except.error e
        | Except.ok () =>
          if ¬ ((finalized_block_header.digest.babe_seal = true) ↔
                  finalized_block_header.number ≠ 0) ∨
              finalized_block_header.digest.has_any_aura = true then
            Except.error ValidityError.ConsensusAlgorithmMismatch
          else
            match finalized_block_header.digest.babe_epoch_information with
            | some (epoch_change, _new_config) =>
              if epoch_change.authorities ≠ finalized_next_epoch_transition.authorities ∨
                  epoch_change.randomness ≠ finalized_next_epoch_transition.randomness then
                Except.error ValidityError.BabeEpochInfoMismatch
              else Except.ok ()
            | none => Except.ok ()
      | none => Except.error ValidityError.MissingBabeSlotStartNumber

/-- The `if let ChainInformationConsensusRef::Babe` block of
`ChainInformationRef::validate` (chain_information.rs:347-417). -/
def babeConsensusChecks (finalized_block_header : HeaderRef)
    (finalized_block_epoch_information : Option BabeEpochInformationRef)
    (finalized_next_epoch_transition : BabeEpochInformationRef) :
    Except ValidityError Unit :=
  match finalized_next_epoch_transition.validate with
  | Except.error err => Except.error (ValidityError.InvalidBabe err)
  | Except.ok () =>
    if finalized_next_epoch_transition.start_slot_number.isSome = true ∧
        finalized_next_epoch_transition.epoch_index = 0 then
      Except.error ValidityError.UnexpectedBabeSlotStartNumber
    else if finalized_next_epoch_transition.start_slot_number = none ∧
        finalized_next_epoch_transition.epoch_index ≠ 0 then
      Except.error ValidityError.MissingBabeSlotStartNumber
    else
      match
        (match finalized_block_epoch_information with
         | some fbei =>
           babeFinalizedEpochChecks finalized_block_header fbei
             finalized_next_epoch_transition
         | none => Except.ok ())
      with
      | Except.error e => Except.error e
      | Except.ok () =>
        if finalized_block_epoch_information.isNone = true ∧
            finalized_block_header.number ≠ 0 then
          Except.error ValidityError.NoBabeFinalizedEpoch
        else Except.ok ()

/-- The `if let ChainInformationConsensusRef::Aura` block of
`ChainInformationRef::validate` (chain_information.rs:419-432). -/
def auraConsensusChecks (finalized_block_header : HeaderRef) :
    Except ValidityError Unit :=
  if ¬ ((finalized_block_header.digest.aura_pre_runtime = true) ↔
          finalized_block_header.number ≠ 0) ∨
      ¬ ((finalized_block_header.digest.aura_seal = true) ↔
          finalized_block_header.number ≠ 0) ∨
      finalized_block_header.digest.has_any_babe = true then
    Except.error ValidityError.ConsensusAlgorithmMismatch
  else Except.ok ()

/-- The two consensus `if let` blocks of `ChainInformationRef::validate`
combined: the variants are mutually exclusive, so at most one block runs. -/
def consensusChecks (finalized_block_header : HeaderRef)
    (consensus : ChainInformationConsensusRef) : Except ValidityError Unit :=
  match consensus with
  | ChainInformationConsensusRef.Unknown => Except.ok ()
  | ChainInformationConsensusRef.Aura _ _ => auraConsensusChecks finalized_block_header
  | ChainInformationConsensusRef.Babe _ finalized_block_epoch_information
      finalized_next_epoch_transition =>
    babeConsensusChecks finalized_block_header finalized_block_epoch_information
      finalized_next_epoch_transition

/-- The `if let ChainInformationFinalityRef::Grandpa` block of
`ChainInformationRef::validate` (chain_information.rs:434-451). -/
def finalityChecks (finalized_block_header : HeaderRef)
    (finality : ChainInformationFinalityRef) : Except ValidityError Unit :=
  match finality with
  | ChainInformationFinalityRef.Outsourced => Except.ok ()
  | ChainInformationFinalityRef.Grandpa after_finalized_block_authorities_set_id _
      finalized_scheduled_change =>
    match
      (match finalized_scheduled_change with
       | some change =>
         if change.1 ≤ finalized_block_header.number then
           Except.error ValidityError.ScheduledGrandPaChangeBeforeFinalized
         else Except.ok ()
       | none => Except.ok ())
    with
    | Except.error e => Except.error e
    | Except.ok () =>
      if finalized_block_header.number = 0 ∧
          after_finalized_block_authorities_set_id ≠ 0 then
        Except.error ValidityError.FinalizedZeroButNonZeroAuthoritiesSetId
      else Except.ok ()

/-- `ChainInformationRef::validate` (chain_information.rs:346): the Babe or
Aura consensus block runs first, then the Grandpa finality block; the first
violated rule is returned. -/
def ChainInformationRef.validate (s : ChainInformationRef) :
    Except ValidityError Unit :=
  match consensusChecks s.finalized_block_header s.consensus with
  | Except.error e => Except.error e
  | Except.ok () => finalityChecks s.finalized_block_header s.finality

/-- `ValidChainInformation` (chain_information.rs:52): wraps a
`ChainInformation` guaranteed coherent; the `inner` field is private in the
source, so outside code can obtain a value only through the operations
modelled below. -/
structure ValidChainInformation where
  inner : ChainInformation
  deriving DecidableEq

/-- `ValidChainInformationRef` (chain_information.rs:90). -/
structure ValidChainInformationRef where
  inner : ChainInformationRef
  deriving DecidableEq

/-- `TryFrom<ChainInformation> for ValidChainInformation`
(chain_information.rs:77). -/
def ValidChainInformation.try_from (info : ChainInformation) :
    Except ValidityError ValidChainInformation :=
  match (ChainInformationRef.ofChainInformation info).validate with
  | Except.error e => Except.error e
  | Except.ok () => Except.ok { inner := info }

/-- `TryFrom<ChainInformationRef> for ValidChainInformationRef`
(chain_information.rs:102). -/
def ValidChainInformationRef.try_from (info : ChainInformationRef) :
    Except ValidityError ValidChainInformationRef :=
  match info.validate with
  | Except.error e => Except.error e
  | Except.ok () => Except.ok { inner := info }

/-- `From<ValidChainInformationRef> for ValidChainInformation`
(chain_information.rs:69). -/
def ValidChainInformation.ofValidRef (info : ValidChainInformationRef) :
    ValidChainInformation :=
  { inner := ChainInformation.ofRef info.inner }

/-- `From<&ValidChainInformation> for ValidChainInformationRef`
(chain_information.rs:94). -/
def ValidChainInformationRef.ofValid (info : ValidChainInformation) :
    ValidChainInformationRef :=
  { inner := ChainInformationRef.ofChainInformation info.inner }

/-- `ValidChainInformation::as_ref` (chain_information.rs:64): exposes the
inner information as a plain `ChainInformationRef`. -/
def ValidChainInformation.as_ref (info : ValidChainInformation) :
    ChainInformationRef :=
  ChainInformationRef.ofChainInformation info.inner

/-- `ValidChainInformationRef::as_ref` (chain_information.rs:113). -/
def ValidChainInformationRef.as_ref (info : ValidChainInformationRef) :
    ChainInformationRef :=
  info.inner

/-- `From<ValidChainInformation> for ChainInformation`
(chain_information.rs:56): unwraps the validated value. -/
def ChainInformation.ofValid (info : ValidChainInformation) : ChainInformation :=
  info.inner

/-! ## Round-trip lemmas for the owning/borrowing conversions -/

/-- Converting a Babe epoch information to its borrowing form and back is
the identity. -/
theorem babe_epoch_information_of_ref_of_info (e : BabeEpochInformation) :
    BabeEpochInformation.ofRef (BabeEpochInformationRef.ofInfo e) = e := by
  simp [BabeEpochInformation.ofRef, BabeEpochInformationRef.ofInfo]

/-- Converting a Babe epoch information view to its owning form and back is
the identity. -/
theorem babe_epoch_information_of_info_of_ref (e : BabeEpochInformationRef) :
    BabeEpochInformationRef.ofInfo (BabeEpochInformation.ofRef e) = e := by
  simp [BabeEpochInformation.ofRef, BabeEpochInformationRef.ofInfo]

/-- Converting a finality configuration to its borrowing form and back is
the identity. -/
theorem finality_of_ref_of_finality (f : ChainInformationFinality) :
    ChainInformationFinality.ofRef (ChainInformationFinalityRef.ofFinality f) = f := by
  cases f <;>
    simp [ChainInformationFinality.ofRef, ChainInformationFinalityRef.ofFinality,
      Option.map_map, Function.comp]

/-- Converting a finality view to its owning form and back is the identity. -/
theorem finality_of_finality_of_ref (f : ChainInformationFinalityRef) :
    ChainInformationFinalityRef.ofFinality (ChainInformationFinality.ofRef f) = f := by
  cases f <;>
    simp [ChainInformationFinality.ofRef, ChainInformationFinalityRef.ofFinality,
      Option.map_map, Function.comp]

/-- The optional current-epoch field round trips to the borrowing form and
back. -/
theorem babe_epoch_information_map_of_ref_of_info (o : Option BabeEpochInformation) :
    Option.map (BabeEpochInformation.ofRef ∘ BabeEpochInformationRef.ofInfo) o = o := by
  cases o <;> simp [Function.comp, babe_epoch_information_of_ref_of_info]

/-- The optional current-epoch view field round trips to the owning form
and back. -/
theorem babe_epoch_information_map_of_info_of_ref (o : Option BabeEpochInformationRef) :
    Option.map (BabeEpochInformationRef.ofInfo ∘ BabeEpochInformation.ofRef) o = o := by
  cases o <;> simp [Function.comp, babe_epoch_information_of_info_of_ref]

/-- Converting a consensus configuration to its borrowing form and back is
the identity. -/
theorem consensus_of_ref_of_consensus (c : ChainInformationConsensus) :
    ChainInformationConsensus.ofRef (ChainInformationConsensusRef.ofConsensus c) = c := by
  cases c <;>
    simp [ChainInformationConsensus.ofRef, ChainInformationConsensusRef.ofConsensus,
      Option.map_map, babe_epoch_information_of_ref_of_info,
      babe_epoch_information_map_of_ref_of_info]

/-- Converting a consensus view to its owning form and back is the
identity. -/
theorem consensus_of_consensus_of_ref (c : ChainInformationConsensusRef) :
    ChainInformationConsensusRef.ofConsensus (ChainInformationConsensus.ofRef c) = c := by
  cases c <;>
    simp [ChainInformationConsensus.ofRef, ChainInformationConsensusRef.ofConsensus,
      Option.map_map, babe_epoch_information_of_info_of_ref,
      babe_epoch_information_map_of_info_of_ref]

/-- Converting a chain information view to its owning form and back is the
identity. -/
theorem chain_information_ref_roundtrip (r : ChainInformationRef) :
    ChainInformationRef.ofChainInformation (ChainInformation.ofRef r) = r := by
  cases r
  simp [ChainInformationRef.ofChainInformation, ChainInformation.ofRef,
    HeaderRef.ofHeader, HeaderRef.toHeader, consensus_of_consensus_of_ref,
    finality_of_finality_of_ref]

/-- C3. Round-trip identity: converting a `ChainInformation` to the
borrowing `ChainInformationRef` (`From<&ChainInformation>`) and back to the
owning form (`From<ChainInformationRef>`) yields the original value, for
every consensus variant (Unknown, Aura, Babe) and every finality variant
(Outsourced, Grandpa). -/
theorem chain_information_roundtrip (x : ChainInformation) :
    ChainInformation.ofRef (ChainInformationRef.ofChainInformation x) = x := by
  cases x
  simp [ChainInformationRef.ofChainInformation, ChainInformation.ofRef,
    HeaderRef.ofHeader, HeaderRef.toHeader, consensus_of_ref_of_consensus,
    finality_of_ref_of_finality]

/-- C2. `TryFrom<ChainInformation> for ValidChainInformation` succeeds with
value `v` exactly when `ChainInformationRef::from(&x).validate()` returns
`Ok(())` and `v` wraps `x` unchanged, and fails with error `e` exactly when
`validate` reports `e` as the first violated rule. -/
theorem try_from_iff_validate (x : ChainInformation) :
    (∀ v : ValidChainInformation,
      ValidChainInformation.try_from x = Except.ok v ↔
        ((ChainInformationRef.ofChainInformation x).validate = Except.ok () ∧
          v.inner = x)) ∧
    (∀ e : ValidityError,
      ValidChainInformation.try_from x = Except.error e ↔
        (ChainInformationRef.ofChainInformation x).validate = Except.error e) := by
  unfold ValidChainInformation.try_from
  cases hval : (ChainInformationRef.ofChainInformation x).validate with
  | error e =>
    refine ⟨fun v => ?_, fun e2 => ?_⟩ <;> simp
  | ok u =>
    cases u
    constructor
    · intro v
      simp
      constructor
      · rintro rfl
        rfl
      · rintro rfl
        rfl
    · intro e2
      simp

/-! ## Smart-constructor soundness -/

/-- A value in the hands of outside code that claims to be validated:
either an owning `ValidChainInformation` or a borrowing
`ValidChainInformationRef`. -/
inductive ValidValue where
  | owned (v : ValidChainInformation)
  | ref (w : ValidChainInformationRef)

/-- The validated values reachable through the public operations of the
module: the two `TryFrom` constructors, `From<ValidChainInformationRef> for
ValidChainInformation`, `From<&ValidChainInformation> for
ValidChainInformationRef`, and `Clone` (which yields an equal value). The
`inner` fields are private in the source, so these are the only producers
of validated values. -/
inductive PubReachable : ValidValue → Prop where
  | try_from_owned (x : ChainInformation) (v : ValidChainInformation) :
      ValidChainInformation.try_from x = Except.ok v →
      PubReachable (ValidValue.owned v)
  | try_from_ref (r : ChainInformationRef) (w : ValidChainInformationRef) :
      ValidChainInformationRef.try_from r = Except.ok w →
      PubReachable (ValidValue.ref w)
  | of_valid_ref (w : ValidChainInformationRef) :
      PubReachable (ValidValue.ref w) →
      PubReachable (ValidValue.owned (ValidChainInformation.ofValidRef w))
  | of_valid (v : ValidChainInformation) :
      PubReachable (ValidValue.owned v) →
      PubReachable (ValidValue.ref (ValidChainInformationRef.ofValid v))
  | clone_owned (v : ValidChainInformation) :
      PubReachable (ValidValue.owned v) → PubReachable (ValidValue.owned v)
  | clone_ref (w : ValidChainInformationRef) :
      PubReachable (ValidValue.ref w) → PubReachable (ValidValue.ref w)

/-- The invariant carried by a validated value: the wrapped information
passes `validate`. -/
def ValidValue.holdsValidated : ValidValue → Prop
  | ValidValue.owned v =>
    (ChainInformationRef.ofChainInformation v.inner).validate = Except.ok ()
  | ValidValue.ref w => w.inner.validate = Except.ok ()

/-- Every publicly reachable validated value satisfies the invariant. -/
theorem pub_reachable_holds_validated (s : ValidValue) (h : PubReachable s) :
    s.holdsValidated := by
  induction h with
  | try_from_owned x v hx =>
    unfold ValidChainInformation.try_from at hx
    cases hval : (ChainInformationRef.ofChainInformation x).validate with
    | error e => rw [hval] at hx; exact absurd hx (by simp)
    | ok u =>
      cases u
      rw [hval] at hx
      simp at hx
      subst hx
      exact hval
  | try_from_ref r w hr =>
    unfold ValidChainInformationRef.try_from at hr
    cases hval : r.validate with
    | error e => rw [hval] at hr; exact absurd hr (by simp)
    | ok u =>
      cases u
      rw [hval] at hr
      simp at hr
      subst hr
      exact hval
  | of_valid_ref w _ ih =>
    show (ChainInformationRef.ofChainInformation
      (ChainInformation.ofRef w.inner)).validate = Except.ok ()
    rw [chain_information_ref_roundtrip]
    exact ih
  | of_valid v _ ih => exact ih
  | clone_owned v _ ih => exact ih
  | clone_ref w _ ih => exact ih

/-- C1. Smart-constructor soundness: every `ValidChainInformation` and
every `ValidChainInformationRef` reachable through the public operations —
`TryFrom` on `ChainInformation`, `TryFrom` on `ChainInformationRef`,
`From<ValidChainInformationRef>`, `From<&ValidChainInformation>`, `as_ref`
and `Clone` — wraps an inner information on which `validate` returns
`Ok(())`; no sequence of public operations produces a validated value from
an input violating the invariants. -/
theorem valid_chain_information_only_via_validate :
    (∀ v : ValidChainInformation, PubReachable (ValidValue.owned v) →
      (ChainInformationRef.ofChainInformation v.inner).validate = Except.ok ()) ∧
    (∀ w : ValidChainInformationRef, PubReachable (ValidValue.ref w) →
      w.inner.validate = Except.ok ()) :=
  ⟨fun v h => pub_reachable_holds_validated (ValidValue.owned v) h,
   fun w h => pub_reachable_holds_validated (ValidValue.ref w) h⟩

/-- A coherent chain information used to exercise the smart constructor:
no consensus engine enforced, finality outsourced. -/
def sampleValidInput : ChainInformation :=
  { finalized_block_header :=
      { number := 0
        digest :=
          { aura_pre_runtime := false
            aura_seal := false
            has_any_babe := false
            babe_pre_runtime := none
            babe_seal := false
            has_any_aura := false
            babe_epoch_information := none } }
    consensus := ChainInformationConsensus.Unknown
    finality := ChainInformationFinality.Outsourced }

/-- Witness for C1 at a concrete reachable value. -/
theorem valid_chain_information_only_via_validate_witness :
    (ChainInformationRef.ofChainInformation sampleValidInput).validate =
      Except.ok () :=
  valid_chain_information_only_via_validate.1 { inner := sampleValidInput }
    (PubReachable.try_from_owned sampleValidInput { inner := sampleValidInput }
      (by decide))

/-! ## Genesis Babe acceptance -/

/-- C4. Genesis Babe acceptance: any chain information whose finalized
header has number 0, with Babe consensus, no current-epoch information,
next-epoch transition of epoch index 0 with no start slot and a valid
fraction, and a finality configuration whose Grandpa block imposes no
violated rule (e.g. `Outsourced`), passes `validate`. -/
theorem genesis_babe_validates
    (hdr : Header) (spe : NonZeroU64) (fnet : BabeEpochInformation)
    (fin : ChainInformationFinality)
    (hnum : hdr.number = 0)
    (hidx : fnet.epoch_index = 0)
    (hslot : fnet.start_slot_number = none)
    (hc : fnet.c.1 ≤ fnet.c.2)
    (hfin : finalityChecks (HeaderRef.ofHeader hdr)
      (ChainInformationFinalityRef.ofFinality fin) = Except.ok ()) :
    (ChainInformationRef.ofChainInformation
      { finalized_block_header := hdr
        consensus := ChainInformationConsensus.Babe spe none fnet
        finality := fin }).validate = Except.ok () := by
  simp [HeaderRef.ofHeader, hnum] at hfin
  simp [ChainInformationRef.validate, ChainInformationRef.ofChainInformation,
    consensusChecks, ChainInformationConsensusRef.ofConsensus, babeConsensusChecks,
    BabeEpochInformationRef.validate, BabeEpochInformationRef.ofInfo,
    HeaderRef.ofHeader, hnum, hidx, hslot, hfin, Nat.not_lt.mpr hc]

/-- Witness for C4 at a concrete genesis Babe chain information. -/
theorem genesis_babe_validates_witness :
    (ChainInformationRef.ofChainInformation
      { finalized_block_header :=
          { number := 0
            digest :=
              { aura_pre_runtime := false
                aura_seal := false
                has_any_babe := false
                babe_pre_runtime := none
                babe_seal := false
                has_any_aura := false
                babe_epoch_information := none } }
        consensus := ChainInformationConsensus.Babe ⟨6, by decide⟩ none
          { epoch_index := 0
            start_slot_number := none
            authorities := []
            randomness := []
            c := (1, 1)
            allowed_slots := BabeAllowedSlots.PrimarySlots }
        finality := ChainInformationFinality.Outsourced }).validate =
      Except.ok () :=
  genesis_babe_validates _ _ _ _ rfl rfl rfl (by decide) rfl

/-! ## No epoch-succession check -/

/-- C10. Implicit — no epoch-succession check: `validate` never relates the
current epoch index to the next epoch index; for every current index `i`
and next index `j ≠ 0`, even when `j ≠ i + 1`, a Babe chain information
satisfying all the other rules validates successfully. -/
theorem no_epoch_succession_check (i j : Nat) (hj : j ≠ 0) (_hsucc : j ≠ i + 1) :
    (ChainInformationRef.ofChainInformation
      { finalized_block_header :=
          { number := 1
            digest :=
              { aura_pre_runtime := false
                aura_seal := false
                has_any_babe := true
                babe_pre_runtime := some 100
                babe_seal := true
                has_any_aura := false
                babe_epoch_information := none } }
        consensus := ChainInformationConsensus.Babe ⟨6, by decide⟩
          (some
            { epoch_index := i
              start_slot_number := some 100
              authorities := []
              randomness := []
              c := (1, 1)
              allowed_slots := BabeAllowedSlots.PrimarySlots })
          { epoch_index := j
            start_slot_number := some 200
            authorities := []
            randomness := []
            c := (1, 1)
            allowed_slots := BabeAllowedSlots.PrimarySlots }
        finality := ChainInformationFinality.Outsourced }).validate =
      Except.ok () := by
  simp [ChainInformationRef.validate, ChainInformationRef.ofChainInformation,
    consensusChecks, ChainInformationConsensusRef.ofConsensus, babeConsensusChecks,
    babeFinalizedEpochChecks, BabeEpochInformationRef.validate,
    BabeEpochInformationRef.ofInfo, HeaderRef.ofHeader, finalityChecks,
    ChainInformationFinalityRef.ofFinality, hj]

/-- Witness for C10 with current epoch 5 and next epoch 99. -/
theorem no_epoch_succession_check_witness :
    (ChainInformationRef.ofChainInformation
      { finalized_block_header :=
          { number := 1
            digest :=
              { aura_pre_runtime := false
                aura_seal := false
                has_any_babe := true
                babe_pre_runtime := some 100
                babe_seal := true
                has_any_aura := false
                babe_epoch_information := none } }
        consensus := ChainInformationConsensus.Babe ⟨6, by decide⟩
          (some
            { epoch_index := 5
              start_slot_number := some 100
              authorities := []
              randomness := []
              c := (1, 1)
              allowed_slots := BabeAllowedSlots.PrimarySlots })
          { epoch_index := 99
            start_slot_number := some 200
            authorities := []
            randomness := []
            c := (1, 1)
            allowed_slots := BabeAllowedSlots.PrimarySlots }
        finality := ChainInformationFinality.Outsourced }).validate =
      Except.ok () :=
  no_epoch_succession_check 5 99 (by decide) (by decide)

/-! ## Next-epoch start-slot rule -/

/-- If the Babe consensus block succeeds, the next-epoch transition's start
slot is present exactly when its epoch index is non-zero. -/
theorem babe_checks_ok_next_epoch (h : HeaderRef)
    (fbei : Option BabeEpochInformationRef) (fnet : BabeEpochInformationRef)
    (hok : babeConsensusChecks h fbei fnet = Except.ok ()) :
    (fnet.start_slot_number.isSome = true ↔ fnet.epoch_index ≠ 0) := by
  unfold babeConsensusChecks at hok
  split at hok
  · simp at hok
  · split at hok
    · simp at hok
    · split at hok
      · simp at hok
      · rename_i hnv h1 h2
        cases hss : fnet.start_slot_number with
        | none => simp [hss] at h1 h2 ⊢; omega
        | some s => simp [hss] at h1 h2 ⊢; omega

/-- C7. Next-epoch start-slot rule: whenever the next-epoch transition
passes the standalone fraction check, `validate` fails with
`UnexpectedBabeSlotStartNumber` when its start slot is present and its
epoch index is 0, fails with `MissingBabeSlotStartNumber` when its start
slot is absent and its epoch index is non-zero, and an accepted state has
the start slot present iff the epoch index is non-zero. -/
theorem next_epoch_start_slot_rule
    (hdr : Header) (spe : NonZeroU64) (fbei : Option BabeEpochInformation)
    (fnet : BabeEpochInformation) (fin : ChainInformationFinality)
    (hc : fnet.c.1 ≤ fnet.c.2) :
    (fnet.start_slot_number.isSome = true → fnet.epoch_index = 0 →
      (ChainInformationRef.ofChainInformation
        { finalized_block_header := hdr
          consensus := ChainInformationConsensus.Babe spe fbei fnet
          finality := fin }).validate =
        Except.error ValidityError.UnexpectedBabeSlotStartNumber) ∧
    (fnet.start_slot_number = none → fnet.epoch_index ≠ 0 →
      (ChainInformationRef.ofChainInformation
        { finalized_block_header := hdr
          consensus := ChainInformationConsensus.Babe spe fbei fnet
          finality := fin }).validate =
        Except.error ValidityError.MissingBabeSlotStartNumber) ∧
    ((ChainInformationRef.ofChainInformation
        { finalized_block_header := hdr
          consensus := ChainInformationConsensus.Babe spe fbei fnet
          finality := fin }).validate = Except.ok () →
      (fnet.start_slot_number.isSome = true ↔ fnet.epoch_index ≠ 0)) := by
  refine ⟨?_, ?_, ?_⟩
  · intro hs hidx
    simp [ChainInformationRef.validate, ChainInformationRef.ofChainInformation,
      consensusChecks, ChainInformationConsensusRef.ofConsensus,
      babeConsensusChecks, BabeEpochInformationRef.validate,
      BabeEpochInformationRef.ofInfo, hs, hidx, Nat.not_lt.mpr hc]
  · intro hs hidx
    simp [ChainInformationRef.validate, ChainInformationRef.ofChainInformation,
      consensusChecks, ChainInformationConsensusRef.ofConsensus,
      babeConsensusChecks, BabeEpochInformationRef.validate,
      BabeEpochInformationRef.ofInfo, hs, hidx, Nat.not_lt.mpr hc]
  · intro hok
    unfold ChainInformationRef.validate at hok
    split at hok
    · simp at hok
    · rename_i heq
      have h2 := babe_checks_ok_next_epoch _ _ _
        (by
          simpa [ChainInformationRef.ofChainInformation, consensusChecks,
            ChainInformationConsensusRef.ofConsensus] using heq)
      simpa [BabeEpochInformationRef.ofInfo] using h2

/-! ## Inversion lemmas on the validation blocks -/

/-- Splitting a successful `validate` into its consensus and finality
parts. -/
theorem validate_ok_split (r : ChainInformationRef)
    (hok : r.validate = Except.ok ()) :
    consensusChecks r.finalized_block_header r.consensus = Except.ok () ∧
    finalityChecks r.finalized_block_header r.finality = Except.ok () := by
  unfold ChainInformationRef.validate at hok
  split at hok
  · simp at hok
  · rename_i heq
    exact ⟨heq, hok⟩

/-- Facts forced by a successful current-epoch block: the finalized block
is not genesis, the current epoch carries a start slot, and the digest
carries a Babe pre-runtime item, a Babe seal and no Aura marker. -/
theorem babe_finalized_checks_ok_facts (h : HeaderRef)
    (e fnet : BabeEpochInformationRef)
    (hok : babeFinalizedEpochChecks h e fnet = Except.ok ()) :
    h.number ≠ 0 ∧ e.start_slot_number.isSome = true ∧
    h.digest.babe_pre_runtime.isSome = true ∧
    h.digest.babe_seal = true ∧ h.digest.has_any_aura = false := by
  unfold babeFinalizedEpochChecks at hok
  split at hok
  · simp at hok
  · split at hok
    · simp at hok
    · rename_i hn
      split at hok
      · rename_i s hss
        split at hok
        · simp at hok
        · rename_i heq
          split at hok
          · simp at hok
          · rename_i hcond
            push_neg at hcond
            refine ⟨hn, by simp [hss], ?_, hcond.1.mpr hn, ?_⟩
            · cases hpre : h.digest.babe_pre_runtime with
              | some sl => simp [hpre]
              | none =>
                rw [hpre] at heq
                simp [hn] at heq
            · simpa using hcond.2
      · simp at hok

/-- A successful Babe consensus block with a present current epoch means
the current-epoch block itself succeeded. -/
theorem babe_checks_ok_inner (h : HeaderRef)
    (fbei : Option BabeEpochInformationRef) (fnet : BabeEpochInformationRef)
    (hok : babeConsensusChecks h fbei fnet = Except.ok ())
    (e : BabeEpochInformationRef) (he : fbei = some e) :
    babeFinalizedEpochChecks h e fnet = Except.ok () := by
  unfold babeConsensusChecks at hok
  split at hok
  · simp at hok
  · split at hok
    · simp at hok
    · split at hok
      · simp at hok
      · split at hok
        · simp at hok
        · rename_i heq
          subst he
          simpa using heq

/-- If the Babe consensus block succeeds, current-epoch information is
present exactly when the finalized block is not genesis. -/
theorem babe_checks_ok_current_epoch (h : HeaderRef)
    (fbei : Option BabeEpochInformationRef) (fnet : BabeEpochInformationRef)
    (hok : babeConsensusChecks h fbei fnet = Except.ok ()) :
    (fbei.isSome = true ↔ h.number ≠ 0) := by
  have hinner := babe_checks_ok_inner h fbei fnet hok
  unfold babeConsensusChecks at hok
  split at hok
  · simp at hok
  · split at hok
    · simp at hok
    · split at hok
      · simp at hok
      · split at hok
        · simp at hok
        · rename_i heq
          split at hok
          · simp at hok
          · rename_i hlast
            cases hbe : fbei with
            | none =>
              simp [hbe] at hlast ⊢
              omega
            | some e =>
              have hfacts := babe_finalized_checks_ok_facts h e fnet
                (hinner e hbe)
              simp [hbe]
              exact hfacts.1

/-! ## Current-epoch presence rule -/

/-- Counterexample to C6 as stated: Babe consensus with a present
current-epoch information on a genesis (number 0) finalized block, whose
current-epoch fraction is invalid — `validate` reports the earlier
`InvalidBabe(InvalidConstant)` rule, not `UnexpectedBabeFinalizedEpoch`. -/
theorem current_epoch_presence_counterexample :
    (∃ spe e fnet,
      ({ finalized_block_header :=
          { number := 0
            digest :=
              { aura_pre_runtime := false
                aura_seal := false
                has_any_babe := false
                babe_pre_runtime := none
                babe_seal := false
                has_any_aura := false
                babe_epoch_information := none } }
         consensus := ChainInformationConsensus.Babe ⟨6, by decide⟩
           (some
             { epoch_index := 0
               start_slot_number := some 5
               authorities := []
               randomness := []
               c := (3, 2)
               allowed_slots := BabeAllowedSlots.PrimarySlots })
           { epoch_index := 0
             start_slot_number := none
             authorities := []
             randomness := []
             c := (1, 1)
             allowed_slots := BabeAllowedSlots.PrimarySlots }
         finality := ChainInformationFinality.Outsourced } :
        ChainInformation).consensus =
          ChainInformationConsensus.Babe spe (some e) fnet) ∧
    ({ finalized_block_header :=
        { number := 0
          digest :=
            { aura_pre_runtime := false
              aura_seal := false
              has_any_babe := false
              babe_pre_runtime := none
              babe_seal := false
              has_any_aura := false
              babe_epoch_information := none } }
       consensus := ChainInformationConsensus.Babe ⟨6, by decide⟩
         (some
           { epoch_index := 0
             start_slot_number := some 5
             authorities := []
             randomness := []
             c := (3, 2)
             allowed_slots := BabeAllowedSlots.PrimarySlots })
         { epoch_index := 0
           start_slot_number := none
           authorities := []
           randomness := []
           c := (1, 1)
           allowed_slots := BabeAllowedSlots.PrimarySlots }
       finality := ChainInformationFinality.Outsourced } :
      ChainInformation).finalized_block_header.number = 0 ∧
    (ChainInformationRef.ofChainInformation
      { finalized_block_header :=
          { number := 0
            digest :=
              { aura_pre_runtime := false
                aura_seal := false
                has_any_babe := false
                babe_pre_runtime := none
                babe_seal := false
                has_any_aura := false
                babe_epoch_information := none } }
        consensus := ChainInformationConsensus.Babe ⟨6, by decide⟩
          (some
            { epoch_index := 0
              start_slot_number := some 5
              authorities := []
              randomness := []
              c := (3, 2)
              allowed_slots := BabeAllowedSlots.PrimarySlots })
          { epoch_index := 0
            start_slot_number := none
            authorities := []
            randomness := []
            c := (1, 1)
            allowed_slots := BabeAllowedSlots.PrimarySlots }
        finality := ChainInformationFinality.Outsourced }).validate =
      Except.error (ValidityError.InvalidBabe BabeValidityError.InvalidConstant) ∧
    (ChainInformationRef.ofChainInformation
      { finalized_block_header :=
          { number := 0
            digest :=
              { aura_pre_runtime := false
                aura_seal := false
                has_any_babe := false
                babe_pre_runtime := none
                babe_seal := false
                has_any_aura := false
                babe_epoch_information := none } }
        consensus := ChainInformationConsensus.Babe ⟨6, by decide⟩
          (some
            { epoch_index := 0
              start_slot_number := some 5
              authorities := []
              randomness := []
              c := (3, 2)
              allowed_slots := BabeAllowedSlots.PrimarySlots })
          { epoch_index := 0
            start_slot_number := none
            authorities := []
            randomness := []
            c := (1, 1)
            allowed_slots := BabeAllowedSlots.PrimarySlots }
        finality := ChainInformationFinality.Outsourced }).validate ≠
      Except.error ValidityError.UnexpectedBabeFinalizedEpoch :=
  ⟨⟨_, _, _, rfl⟩, rfl, by decide, by decide⟩

/-- C6 (amended). Current-epoch presence rule, stated with the checks that
run earlier in algorithm order as side conditions: with the next-epoch
transition passing its fraction and start-slot checks, `validate` fails
with `UnexpectedBabeFinalizedEpoch` when current-epoch information with a
valid fraction is present on a genesis block, and fails with
`NoBabeFinalizedEpoch` when it is absent on a non-genesis block; any
accepted Babe state has current-epoch information present iff the
finalized block is not genesis. -/
theorem current_epoch_presence_rule
    (hdr : Header) (spe : NonZeroU64) (fbei : Option BabeEpochInformation)
    (fnet : BabeEpochInformation) (fin : ChainInformationFinality) :
    (∀ e : BabeEpochInformation, fbei = some e → hdr.number = 0 →
      fnet.c.1 ≤ fnet.c.2 →
      (fnet.start_slot_number.isSome = true ↔ fnet.epoch_index ≠ 0) →
      e.c.1 ≤ e.c.2 →
      (ChainInformationRef.ofChainInformation
        { finalized_block_header := hdr
          consensus := ChainInformationConsensus.Babe spe fbei fnet
          finality := fin }).validate =
        Except.error ValidityError.UnexpectedBabeFinalizedEpoch) ∧
    (fbei = none → hdr.number ≠ 0 →
      fnet.c.1 ≤ fnet.c.2 →
      (fnet.start_slot_number.isSome = true ↔ fnet.epoch_index ≠ 0) →
      (ChainInformationRef.ofChainInformation
        { finalized_block_header := hdr
          consensus := ChainInformationConsensus.Babe spe fbei fnet
          finality := fin }).validate =
        Except.error ValidityError.NoBabeFinalizedEpoch) ∧
    ((ChainInformationRef.ofChainInformation
        { finalized_block_header := hdr
          consensus := ChainInformationConsensus.Babe spe fbei fnet
          finality := fin }).validate = Except.ok () →
      (fbei.isSome = true ↔ hdr.number ≠ 0)) := by
  refine ⟨?_, ?_, ?_⟩
  · rintro e rfl hnum hfc hss hce
    have h1 : ¬(fnet.start_slot_number.isSome = true ∧ fnet.epoch_index = 0) :=
      fun hh => hss.mp hh.1 hh.2
    have h2 : ¬(fnet.start_slot_number = none ∧ fnet.epoch_index ≠ 0) := by
      rintro ⟨ha, hb⟩
      have h3 := hss.mpr hb
      rw [ha] at h3
      simp at h3
    simp [ChainInformationRef.validate, ChainInformationRef.ofChainInformation,
      consensusChecks, ChainInformationConsensusRef.ofConsensus,
      babeConsensusChecks, babeFinalizedEpochChecks,
      BabeEpochInformationRef.validate, BabeEpochInformationRef.ofInfo,
      HeaderRef.ofHeader, hnum, h1, h2, Nat.not_lt.mpr hfc, Nat.not_lt.mpr hce]
  · rintro rfl hnum hfc hss
    have h1 : ¬(fnet.start_slot_number.isSome = true ∧ fnet.epoch_index = 0) :=
      fun hh => hss.mp hh.1 hh.2
    have h2 : ¬(fnet.start_slot_number = none ∧ fnet.epoch_index ≠ 0) := by
      rintro ⟨ha, hb⟩
      have h3 := hss.mpr hb
      rw [ha] at h3
      simp at h3
    simp [ChainInformationRef.validate, ChainInformationRef.ofChainInformation,
      consensusChecks, ChainInformationConsensusRef.ofConsensus,
      babeConsensusChecks, BabeEpochInformationRef.validate,
      BabeEpochInformationRef.ofInfo, HeaderRef.ofHeader, hnum, h1, h2,
      Nat.not_lt.mpr hfc]
  · intro hok
    have hcons := (validate_ok_split _ hok).1
    have hcur := babe_checks_ok_current_epoch _ _ _
      (by
        simpa [ChainInformationRef.ofChainInformation, consensusChecks,
          ChainInformationConsensusRef.ofConsensus] using hcons)
    simpa [HeaderRef.ofHeader, Option.isSome_map] using hcur

/-- Witness for C6 at a concrete genesis input with a well-formed
current-epoch information present. -/
theorem current_epoch_presence_rule_witness :
    (ChainInformationRef.ofChainInformation
      { finalized_block_header :=
          { number := 0
            digest :=
              { aura_pre_runtime := false
                aura_seal := false
                has_any_babe := false
                babe_pre_runtime := none
                babe_seal := false
                has_any_aura := false
                babe_epoch_information := none } }
        consensus := ChainInformationConsensus.Babe ⟨6, by decide⟩
          (some
            { epoch_index := 0
              start_slot_number := some 5
              authorities := []
              randomness := []
              c := (1, 1)
              allowed_slots := BabeAllowedSlots.PrimarySlots })
          { epoch_index := 0
            start_slot_number := none
            authorities := []
            randomness := []
            c := (1, 1)
            allowed_slots := BabeAllowedSlots.PrimarySlots }
        finality := ChainInformationFinality.Outsourced }).validate =
      Except.error ValidityError.UnexpectedBabeFinalizedEpoch :=
  (current_epoch_presence_rule _ _ _ _ _).1 _ rfl rfl (by decide) (by decide)
    (by decide)

/-- Witness for C7 at a concrete input whose next-epoch transition carries
a start slot despite epoch index 0. -/
theorem next_epoch_start_slot_rule_witness :
    (ChainInformationRef.ofChainInformation
      { finalized_block_header :=
          { number := 0
            digest :=
              { aura_pre_runtime := false
                aura_seal := false
                has_any_babe := false
                babe_pre_runtime := none
                babe_seal := false
                has_any_aura := false
                babe_epoch_information := none } }
        consensus := ChainInformationConsensus.Babe ⟨6, by decide⟩ none
          { epoch_index := 0
            start_slot_number := some 7
            authorities := []
            randomness := []
            c := (1, 1)
            allowed_slots := BabeAllowedSlots.PrimarySlots }
        finality := ChainInformationFinality.Outsourced }).validate =
      Except.error ValidityError.UnexpectedBabeSlotStartNumber :=
  (next_epoch_start_slot_rule _ _ _ _ _ (by decide)).1 rfl rfl

/-! ## Digest/engine agreement -/

/-- Facts forced by a successful Aura consensus block: the Aura pre-runtime
item and seal are present exactly on non-genesis headers, and no Babe
marker is present. -/
theorem aura_checks_ok_facts (h : HeaderRef)
    (hok : auraConsensusChecks h = Except.ok ()) :
    (h.digest.aura_pre_runtime = true ↔ h.number ≠ 0) ∧
    (h.digest.aura_seal = true ↔ h.number ≠ 0) ∧
    h.digest.has_any_babe = false := by
  unfold auraConsensusChecks at hok
  split at hok
  · simp at hok
  · rename_i hcond
    push_neg at hcond
    exact ⟨hcond.1, hcond.2.1, by simpa using hcond.2.2⟩

/-- Counterexample to C5 as stated: a genesis Babe chain information whose
header digest carries a Babe seal and an Aura marker is nevertheless
accepted by `validate` — the digest checks only run inside the
current-epoch branch, which genesis states skip. -/
theorem digest_engine_agreement_counterexample :
    (ChainInformationRef.ofChainInformation
      { finalized_block_header :=
          { number := 0
            digest :=
              { aura_pre_runtime := false
                aura_seal := false
                has_any_babe := false
                babe_pre_runtime := none
                babe_seal := true
                has_any_aura := true
                babe_epoch_information := none } }
        consensus := ChainInformationConsensus.Babe ⟨6, by decide⟩ none
          { epoch_index := 0
            start_slot_number := none
            authorities := []
            randomness := []
            c := (1, 1)
            allowed_slots := BabeAllowedSlots.PrimarySlots }
        finality := ChainInformationFinality.Outsourced }).validate =
      Except.ok () ∧
    ({ finalized_block_header :=
        { number := 0
          digest :=
            { aura_pre_runtime := false
              aura_seal := false
              has_any_babe := false
              babe_pre_runtime := none
              babe_seal := true
              has_any_aura := true
              babe_epoch_information := none } }
       consensus := ChainInformationConsensus.Babe ⟨6, by decide⟩ none
         { epoch_index := 0
           start_slot_number := none
           authorities := []
           randomness := []
           c := (1, 1)
           allowed_slots := BabeAllowedSlots.PrimarySlots }
       finality := ChainInformationFinality.Outsourced } :
      ChainInformation).finalized_block_header.number = 0 ∧
    ({ finalized_block_header :=
        { number := 0
          digest :=
            { aura_pre_runtime := false
              aura_seal := false
              has_any_babe := false
              babe_pre_runtime := none
              babe_seal := true
              has_any_aura := true
              babe_epoch_information := none } }
       consensus := ChainInformationConsensus.Babe ⟨6, by decide⟩ none
         { epoch_index := 0
           start_slot_number := none
           authorities := []
           randomness := []
           c := (1, 1)
           allowed_slots := BabeAllowedSlots.PrimarySlots }
       finality := ChainInformationFinality.Outsourced } :
      ChainInformation).finalized_block_header.digest.babe_seal = true ∧
    ({ finalized_block_header :=
        { number := 0
          digest :=
            { aura_pre_runtime := false
              aura_seal := false
              has_any_babe := false
              babe_pre_runtime := none
              babe_seal := true
              has_any_aura := true
              babe_epoch_information := none } }
       consensus := ChainInformationConsensus.Babe ⟨6, by decide⟩ none
         { epoch_index := 0
           start_slot_number := none
           authorities := []
           randomness := []
           c := (1, 1)
           allowed_slots := BabeAllowedSlots.PrimarySlots }
       finality := ChainInformationFinality.Outsourced } :
      ChainInformation).finalized_block_header.digest.has_any_aura = true :=
  ⟨by decide, rfl, rfl, rfl⟩

/-- C5 (amended). Digest/engine agreement for accepted states: under Babe
the agreement is enforced only on non-genesis headers (which carry a Babe
pre-runtime item, a Babe seal and no Aura marker); a genesis Babe state
undergoes no digest check, so its digest is unconstrained. Under Aura the
agreement holds in full: Aura pre-runtime and seal present iff the header
number is non-zero, and no Babe marker. -/
theorem digest_engine_agreement (x : ChainInformation)
    (hok : (ChainInformationRef.ofChainInformation x).validate = Except.ok ()) :
    (∀ spe fbei fnet,
      x.consensus = ChainInformationConsensus.Babe spe fbei fnet →
      x.finalized_block_header.number ≠ 0 →
      x.finalized_block_header.digest.babe_pre_runtime.isSome = true ∧
      x.finalized_block_header.digest.babe_seal = true ∧
      x.finalized_block_header.digest.has_any_aura = false) ∧
    (∀ l d, x.consensus = ChainInformationConsensus.Aura l d →
      ((x.finalized_block_header.digest.aura_pre_runtime = true ↔
          x.finalized_block_header.number ≠ 0) ∧
       (x.finalized_block_header.digest.aura_seal = true ↔
          x.finalized_block_header.number ≠ 0) ∧
       x.finalized_block_header.digest.has_any_babe = false)) := by
  obtain ⟨hdr, cons, fin⟩ := x
  have hcons := (validate_ok_split _ hok).1
  constructor
  · rintro spe fbei fnet rfl hnum
    simp only [ChainInformationRef.ofChainInformation, consensusChecks,
      ChainInformationConsensusRef.ofConsensus] at hcons
    have hcur := babe_checks_ok_current_epoch _ _ _ hcons
    simp only [HeaderRef.ofHeader, Option.isSome_map] at hcur
    simp only at hnum
    cases hbe : fbei with
    | none =>
      rw [hbe] at hcur
      simp at hcur
      exact absurd hcur hnum
    | some e =>
      have hinner := babe_checks_ok_inner _ _ _ hcons
        (BabeEpochInformationRef.ofInfo e) (by rw [hbe]; rfl)
      have hfacts := babe_finalized_checks_ok_facts _ _ _ hinner
      simp only [HeaderRef.ofHeader] at hfacts
      exact ⟨hfacts.2.2.1, hfacts.2.2.2.1, hfacts.2.2.2.2⟩
  · rintro l d rfl
    simp only [ChainInformationRef.ofChainInformation, consensusChecks,
      ChainInformationConsensusRef.ofConsensus] at hcons
    have hfacts := aura_checks_ok_facts _ hcons
    simpa [HeaderRef.ofHeader] using hfacts

/-- Witness for C5 at a concrete accepted non-genesis Babe state. -/
theorem digest_engine_agreement_witness :
    ({ finalized_block_header :=
        { number := 1
          digest :=
            { aura_pre_runtime := false
              aura_seal := false
              has_any_babe := true
              babe_pre_runtime := some 100
              babe_seal := true
              has_any_aura := false
              babe_epoch_information := none } }
       consensus := ChainInformationConsensus.Babe ⟨6, by decide⟩
         (some
           { epoch_index := 5
             start_slot_number := some 100
             authorities := []
             randomness := []
             c := (1, 1)
             allowed_slots := BabeAllowedSlots.PrimarySlots })
         { epoch_index := 6
           start_slot_number := some 200
           authorities := []
           randomness := []
           c := (1, 1)
           allowed_slots := BabeAllowedSlots.PrimarySlots }
       finality := ChainInformationFinality.Outsourced } :
      ChainInformation).finalized_block_header.digest.babe_pre_runtime.isSome =
        true ∧
    ({ finalized_block_header :=
        { number := 1
          digest :=
            { aura_pre_runtime := false
              aura_seal := false
              has_any_babe := true
              babe_pre_runtime := some 100
              babe_seal := true
              has_any_aura := false
              babe_epoch_information := none } }
       consensus := ChainInformationConsensus.Babe ⟨6, by decide⟩
         (some
           { epoch_index := 5
             start_slot_number := some 100
             authorities := []
             randomness := []
             c := (1, 1)
             allowed_slots := BabeAllowedSlots.PrimarySlots })
         { epoch_index := 6
           start_slot_number := some 200
           authorities := []
           randomness := []
           c := (1, 1)
           allowed_slots := BabeAllowedSlots.PrimarySlots }
       finality := ChainInformationFinality.Outsourced } :
      ChainInformation).finalized_block_header.digest.babe_seal = true :=
  ⟨((digest_engine_agreement _ (by decide)).1 _ _ _ rfl (by decide)).1,
   ((digest_engine_agreement _ (by decide)).1 _ _ _ rfl (by decide)).2.1⟩

/-! ## Header slot ordering rule -/

/-- The finality block never reports
`HeaderBabeSlotInferiorToEpochStartSlot`. -/
theorem finality_checks_no_slot_error (h : HeaderRef)
    (f : ChainInformationFinalityRef) :
    finalityChecks h f ≠
      Except.error ValidityError.HeaderBabeSlotInferiorToEpochStartSlot := by
  intro hc
  cases f with
  | Outsourced => simp [finalityChecks] at hc
  | Grandpa sid auths sch =>
    simp only [finalityChecks] at hc
    cases sch with
    | none =>
      simp only [Option.map] at hc
      split at hc <;> simp at hc
    | some change =>
      by_cases ht : change.1 ≤ h.number
      · simp [ht] at hc
      · simp only [if_neg ht] at hc
        split at hc <;> simp at hc


/-- The current-epoch block reports
`HeaderBabeSlotInferiorToEpochStartSlot` only when the current epoch
declares a start slot and the header embeds a strictly smaller slot
number. -/
theorem babe_finalized_checks_slot_error (h : HeaderRef)
    (e fnet : BabeEpochInformationRef)
    (hc : babeFinalizedEpochChecks h e fnet =
      Except.error ValidityError.HeaderBabeSlotInferiorToEpochStartSlot) :
    ∃ s sl, e.start_slot_number = some s ∧
      h.digest.babe_pre_runtime = some sl ∧ sl < s := by
  unfold babeFinalizedEpochChecks at hc
  cases hv : e.validate with
  | error err => rw [hv] at hc; simp at hc
  | ok u =>
    cases u
    rw [hv] at hc
    by_cases hn : h.number = 0
    · simp [hn] at hc
    · simp only [if_neg hn] at hc
      cases hss : e.start_slot_number with
      | none => rw [hss] at hc; simp at hc
      | some s =>
        rw [hss] at hc
        cases hpre : h.digest.babe_pre_runtime with
        | none =>
          rw [hpre] at hc
          simp [hn] at hc
        | some sl =>
          rw [hpre] at hc
          simp only [if_neg hn] at hc
          by_cases hlt : sl < s
          · exact ⟨s, sl, rfl, rfl, hlt⟩
          · simp only [if_neg hlt] at hc
            by_cases hseal : (¬ ((h.digest.babe_seal = true) ↔ h.number ≠ 0) ∨
                h.digest.has_any_aura = true)
            · simp [hseal] at hc
            · simp only [if_neg hseal] at hc
              cases hei : h.digest.babe_epoch_information with
              | none => rw [hei] at hc; simp at hc
              | some p =>
                obtain ⟨pc, pb⟩ := p
                rw [hei] at hc
                by_cases hmis : (pc.authorities ≠ fnet.authorities ∨
                    pc.randomness ≠ fnet.randomness)
                · simp [hmis] at hc
                · simp [hmis] at hc

/-- The Babe consensus block reports
`HeaderBabeSlotInferiorToEpochStartSlot` only out of the current-epoch
block. -/
theorem babe_checks_slot_error (h : HeaderRef)
    (fbei : Option BabeEpochInformationRef) (fnet : BabeEpochInformationRef)
    (hc : babeConsensusChecks h fbei fnet =
      Except.error ValidityError.HeaderBabeSlotInferiorToEpochStartSlot) :
    ∃ e, fbei = some e ∧ babeFinalizedEpochChecks h e fnet =
      Except.error ValidityError.HeaderBabeSlotInferiorToEpochStartSlot := by
  unfold babeConsensusChecks at hc
  split at hc
  · simp at hc
  · split at hc
    · simp at hc
    · split at hc
      · simp at hc
      · split at hc
        · rename_i e0 heq
          simp at hc
          subst hc
          cases hbe : fbei with
          | none => rw [hbe] at heq; simp at heq
          | some e =>
            rw [hbe] at heq
            exact ⟨e, rfl, heq⟩
        · split at hc <;> simp at hc

/-- `validate` reports `HeaderBabeSlotInferiorToEpochStartSlot` only for a
Babe configuration whose current epoch declares a start slot exceeding the
header's embedded slot number. -/
theorem validate_slot_error (r : ChainInformationRef)
    (hc : r.validate =
      Except.error ValidityError.HeaderBabeSlotInferiorToEpochStartSlot) :
    ∃ spe fbei fnet e s sl,
      r.consensus = ChainInformationConsensusRef.Babe spe fbei fnet ∧
      fbei = some e ∧ e.start_slot_number = some s ∧
      r.finalized_block_header.digest.babe_pre_runtime = some sl ∧
      sl < s := by
  unfold ChainInformationRef.validate at hc
  cases hcc : consensusChecks r.finalized_block_header r.consensus with
  | ok u =>
    cases u
    rw [hcc] at hc
    exact absurd hc (finality_checks_no_slot_error _ _)
  | error e0 =>
    rw [hcc] at hc
    simp at hc
    subst hc
    cases hcons : r.consensus with
    | Unknown => rw [hcons] at hcc; simp [consensusChecks] at hcc
    | Aura l d =>
      rw [hcons] at hcc
      simp only [consensusChecks, auraConsensusChecks] at hcc
      split at hcc <;> simp at hcc
    | Babe spe fbei fnet =>
      rw [hcons] at hcc
      simp only [consensusChecks] at hcc
      obtain ⟨e, hbe, hfin⟩ := babe_checks_slot_error _ _ _ hcc
      obtain ⟨s, sl, hss, hpre, hlt⟩ :=
        babe_finalized_checks_slot_error _ _ _ hfin
      exact ⟨spe, fbei, fnet, e, s, sl, rfl, hbe, hss, hpre, hlt⟩

/-- Counterexample to C8 as stated: the slot-ordering conditions hold (the
current epoch declares start slot 200 and the header embeds slot 100), but
the next-epoch transition's fraction is invalid, so `validate` reports the
earlier `InvalidBabe(InvalidConstant)` rule instead of
`HeaderBabeSlotInferiorToEpochStartSlot`. -/
theorem header_slot_rule_counterexample :
    ({ finalized_block_header :=
        { number := 1
          digest :=
            { aura_pre_runtime := false
              aura_seal := false
              has_any_babe := true
              babe_pre_runtime := some 100
              babe_seal := true
              has_any_aura := false
              babe_epoch_information := none } }
       consensus := ChainInformationConsensus.Babe ⟨6, by decide⟩
         (some
           { epoch_index := 5
             start_slot_number := some 200
             authorities := []
             randomness := []
             c := (1, 1)
             allowed_slots := BabeAllowedSlots.PrimarySlots })
         { epoch_index := 1
           start_slot_number := some 300
           authorities := []
           randomness := []
           c := (3, 2)
           allowed_slots := BabeAllowedSlots.PrimarySlots }
       finality := ChainInformationFinality.Outsourced } :
      ChainInformation).consensus =
        ChainInformationConsensus.Babe ⟨6, by decide⟩
          (some
            { epoch_index := 5
              start_slot_number := some 200
              authorities := []
              randomness := []
              c := (1, 1)
              allowed_slots := BabeAllowedSlots.PrimarySlots })
          { epoch_index := 1
            start_slot_number := some 300
            authorities := []
            randomness := []
            c := (3, 2)
            allowed_slots := BabeAllowedSlots.PrimarySlots } ∧
    (100 : Nat) < 200 ∧
    (ChainInformationRef.ofChainInformation
      { finalized_block_header :=
          { number := 1
            digest :=
              { aura_pre_runtime := false
                aura_seal := false
                has_any_babe := true
                babe_pre_runtime := some 100
                babe_seal := true
                has_any_aura := false
                babe_epoch_information := none } }
        consensus := ChainInformationConsensus.Babe ⟨6, by decide⟩
          (some
            { epoch_index := 5
              start_slot_number := some 200
              authorities := []
              randomness := []
              c := (1, 1)
              allowed_slots := BabeAllowedSlots.PrimarySlots })
          { epoch_index := 1
            start_slot_number := some 300
            authorities := []
            randomness := []
            c := (3, 2)
            allowed_slots := BabeAllowedSlots.PrimarySlots }
        finality := ChainInformationFinality.Outsourced }).validate =
      Except.error (ValidityError.InvalidBabe BabeValidityError.InvalidConstant) ∧
    (ChainInformationRef.ofChainInformation
      { finalized_block_header :=
          { number := 1
            digest :=
              { aura_pre_runtime := false
                aura_seal := false
                has_any_babe := true
                babe_pre_runtime := some 100
                babe_seal := true
                has_any_aura := false
                babe_epoch_information := none } }
        consensus := ChainInformationConsensus.Babe ⟨6, by decide⟩
          (some
            { epoch_index := 5
              start_slot_number := some 200
              authorities := []
              randomness := []
              c := (1, 1)
              allowed_slots := BabeAllowedSlots.PrimarySlots })
          { epoch_index := 1
            start_slot_number := some 300
            authorities := []
            randomness := []
            c := (3, 2)
            allowed_slots := BabeAllowedSlots.PrimarySlots }
        finality := ChainInformationFinality.Outsourced }).validate ≠
      Except.error ValidityError.HeaderBabeSlotInferiorToEpochStartSlot :=
  ⟨rfl, by decide, by decide, by decide⟩

/-- C8 (amended). Slot ordering rule: when the checks that run earlier in
algorithm order pass (next-epoch fraction and start-slot rules,
current-epoch fraction, non-genesis header), a current epoch declaring
start slot `s` together with an embedded header slot `sl < s` makes
`validate` fail with `HeaderBabeSlotInferiorToEpochStartSlot`; and for any
chain information whose embedded slot is `≥` the declared start slot, this
rule never fires. -/
theorem header_slot_rule :
    (∀ (hdr : Header) (spe : NonZeroU64) (e fnet : BabeEpochInformation)
        (fin : ChainInformationFinality) (s sl : Nat),
      fnet.c.1 ≤ fnet.c.2 →
      (fnet.start_slot_number.isSome = true ↔ fnet.epoch_index ≠ 0) →
      e.c.1 ≤ e.c.2 →
      hdr.number ≠ 0 →
      e.start_slot_number = some s →
      hdr.digest.babe_pre_runtime = some sl →
      sl < s →
      (ChainInformationRef.ofChainInformation
        { finalized_block_header := hdr
          consensus := ChainInformationConsensus.Babe spe (some e) fnet
          finality := fin }).validate =
        Except.error ValidityError.HeaderBabeSlotInferiorToEpochStartSlot) ∧
    (∀ (x : ChainInformation) (spe : NonZeroU64)
        (e fnet : BabeEpochInformation) (s sl : Nat),
      x.consensus = ChainInformationConsensus.Babe spe (some e) fnet →
      e.start_slot_number = some s →
      x.finalized_block_header.digest.babe_pre_runtime = some sl →
      s ≤ sl →
      (ChainInformationRef.ofChainInformation x).validate ≠
        Except.error ValidityError.HeaderBabeSlotInferiorToEpochStartSlot) := by
  constructor
  · intro hdr spe e fnet fin s sl hfc hss hce hnum hes hpre hlt
    have h1 : ¬(fnet.start_slot_number.isSome = true ∧ fnet.epoch_index = 0) :=
      fun hh => hss.mp hh.1 hh.2
    have h2 : ¬(fnet.start_slot_number = none ∧ fnet.epoch_index ≠ 0) := by
      rintro ⟨ha, hb⟩
      have h3 := hss.mpr hb
      rw [ha] at h3
      simp at h3
    simp [ChainInformationRef.validate, ChainInformationRef.ofChainInformation,
      consensusChecks, ChainInformationConsensusRef.ofConsensus,
      babeConsensusChecks, babeFinalizedEpochChecks,
      BabeEpochInformationRef.validate, BabeEpochInformationRef.ofInfo,
      HeaderRef.ofHeader, hnum, h1, h2, hes, hpre, hlt,
      Nat.not_lt.mpr hfc, Nat.not_lt.mpr hce]
  · intro x spe e fnet s sl hxc hes hpre hs hcontra
    obtain ⟨spe2, fbei2, fnet2, e2, s2, sl2, hcons2, hbe2, hss2, hpre2, hlt2⟩ :=
      validate_slot_error _ hcontra
    rw [ChainInformationRef.ofChainInformation] at hcons2 hpre2
    simp only [hxc, ChainInformationConsensusRef.ofConsensus, Option.map_some,
      HeaderRef.ofHeader] at hcons2 hpre2
    obtain ⟨-, hbe3, -⟩ := ChainInformationConsensusRef.Babe.inj hcons2
    rw [← hbe3] at hbe2
    have he2 : e2 = BabeEpochInformationRef.ofInfo e := by
      injection hbe2 with h4
      exact h4.symm
    rw [he2] at hss2
    rw [BabeEpochInformationRef.ofInfo] at hss2
    simp only at hss2
    rw [hes] at hss2
    injection hss2 with h5
    rw [hpre] at hpre2
    injection hpre2 with h6
    omega

/-- Witness for C8 at a concrete input whose header embeds slot 50 against
a declared epoch start slot of 100. -/
theorem header_slot_rule_witness :
    (ChainInformationRef.ofChainInformation
      { finalized_block_header :=
          { number := 1
            digest :=
              { aura_pre_runtime := false
                aura_seal := false
                has_any_babe := true
                babe_pre_runtime := some 50
                babe_seal := true
                has_any_aura := false
                babe_epoch_information := none } }
        consensus := ChainInformationConsensus.Babe ⟨6, by decide⟩
          (some
            { epoch_index := 5
              start_slot_number := some 100
              authorities := []
              randomness := []
              c := (1, 1)
              allowed_slots := BabeAllowedSlots.PrimarySlots })
          { epoch_index := 1
            start_slot_number := some 200
            authorities := []
            randomness := []
            c := (1, 1)
            allowed_slots := BabeAllowedSlots.PrimarySlots }
        finality := ChainInformationFinality.Outsourced }).validate =
      Except.error ValidityError.HeaderBabeSlotInferiorToEpochStartSlot :=
  header_slot_rule.1 _ _ _ _ _ 100 50 (by decide) (by decide) (by decide)
    (by decide) rfl rfl (by decide)

/-! ## Grandpa branch rules -/

/-- Counterexample to C9 as stated: genesis finalized block with Grandpa
set id 1 — the second Grandpa rule's conditions hold — but a scheduled
change with trigger height 0 makes `validate` report the earlier
`ScheduledGrandPaChangeBeforeFinalized` rule, not
`FinalizedZeroButNonZeroAuthoritiesSetId`. -/
theorem grandpa_rules_counterexample :
    ({ finalized_block_header :=
        { number := 0
          digest :=
            { aura_pre_runtime := false
              aura_seal := false
              has_any_babe := false
              babe_pre_runtime := none
              babe_seal := false
              has_any_aura := false
              babe_epoch_information := none } }
       consensus := ChainInformationConsensus.Unknown
       finality := ChainInformationFinality.Grandpa 1 [] (some (0, [])) } :
      ChainInformation).finality =
        ChainInformationFinality.Grandpa 1 [] (some (0, [])) ∧
    ({ finalized_block_header :=
        { number := 0
          digest :=
            { aura_pre_runtime := false
              aura_seal := false
              has_any_babe := false
              babe_pre_runtime := none
              babe_seal := false
              has_any_aura := false
              babe_epoch_information := none } }
       consensus := ChainInformationConsensus.Unknown
       finality := ChainInformationFinality.Grandpa 1 [] (some (0, [])) } :
      ChainInformation).finalized_block_header.number = 0 ∧
    (1 : Nat) ≠ 0 ∧
    (ChainInformationRef.ofChainInformation
      { finalized_block_header :=
          { number := 0
            digest :=
              { aura_pre_runtime := false
                aura_seal := false
                has_any_babe := false
                babe_pre_runtime := none
                babe_seal := false
                has_any_aura := false
                babe_epoch_information := none } }
        consensus := ChainInformationConsensus.Unknown
        finality := ChainInformationFinality.Grandpa 1 [] (some (0, [])) }).validate =
      Except.error ValidityError.ScheduledGrandPaChangeBeforeFinalized ∧
    (ChainInformationRef.ofChainInformation
      { finalized_block_header :=
          { number := 0
            digest :=
              { aura_pre_runtime := false
                aura_seal := false
                has_any_babe := false
                babe_pre_runtime := none
                babe_seal := false
                has_any_aura := false
                babe_epoch_information := none } }
        consensus := ChainInformationConsensus.Unknown
        finality := ChainInformationFinality.Grandpa 1 [] (some (0, [])) }).validate ≠
      Except.error ValidityError.FinalizedZeroButNonZeroAuthoritiesSetId :=
  ⟨rfl, rfl, by decide, by decide, by decide⟩

/-- C9 (amended). Grandpa branch rules, stated with the consensus checks
(which run earlier) passing as a side condition: a scheduled change with
trigger height at most the finalized number makes `validate` fail with
`ScheduledGrandPaChangeBeforeFinalized`; with no such scheduled-change
violation, a genesis finalized block with non-zero set id makes it fail
with `FinalizedZeroButNonZeroAuthoritiesSetId`; `Outsourced` finality adds
no check — `validate` then returns exactly the consensus checks' result. -/
theorem grandpa_rules :
    (∀ (hdr : Header) (cons : ChainInformationConsensus) (sid : Nat)
        (auths : List GrandpaAuthority) (t : Nat) (l : List GrandpaAuthority),
      consensusChecks (HeaderRef.ofHeader hdr)
        (ChainInformationConsensusRef.ofConsensus cons) = Except.ok () →
      t ≤ hdr.number →
      (ChainInformationRef.ofChainInformation
        { finalized_block_header := hdr
          consensus := cons
          finality :=
            ChainInformationFinality.Grandpa sid auths (some (t, l)) }).validate =
        Except.error ValidityError.ScheduledGrandPaChangeBeforeFinalized) ∧
    (∀ (hdr : Header) (cons : ChainInformationConsensus) (sid : Nat)
        (auths : List GrandpaAuthority)
        (sch : Option (Nat × List GrandpaAuthority)),
      consensusChecks (HeaderRef.ofHeader hdr)
        (ChainInformationConsensusRef.ofConsensus cons) = Except.ok () →
      (∀ (t : Nat) (l : List GrandpaAuthority), sch = some (t, l) →
        hdr.number < t) →
      hdr.number = 0 → sid ≠ 0 →
      (ChainInformationRef.ofChainInformation
        { finalized_block_header := hdr
          consensus := cons
          finality := ChainInformationFinality.Grandpa sid auths sch }).validate =
        Except.error ValidityError.FinalizedZeroButNonZeroAuthoritiesSetId) ∧
    (∀ (hdr : Header) (cons : ChainInformationConsensus),
      (ChainInformationRef.ofChainInformation
        { finalized_block_header := hdr
          consensus := cons
          finality := ChainInformationFinality.Outsourced }).validate =
        consensusChecks (HeaderRef.ofHeader hdr)
          (ChainInformationConsensusRef.ofConsensus cons)) := by
  refine ⟨?_, ?_, ?_⟩
  · intro hdr cons sid auths t l hcons ht
    simp only [HeaderRef.ofHeader] at hcons
    simp [ChainInformationRef.validate, ChainInformationRef.ofChainInformation,
      hcons, finalityChecks, ChainInformationFinalityRef.ofFinality,
      HeaderRef.ofHeader, ht]
  · intro hdr cons sid auths sch hcons hsch hnum hsid
    simp only [HeaderRef.ofHeader, hnum] at hcons
    cases sch with
    | none =>
      simp [ChainInformationRef.validate, ChainInformationRef.ofChainInformation,
        hcons, finalityChecks, ChainInformationFinalityRef.ofFinality,
        HeaderRef.ofHeader, hnum, hsid]
    | some change =>
      obtain ⟨t, l⟩ := change
      have hlt : hdr.number < t := hsch t l rfl
      have ht0 : t ≠ 0 := by omega
      simp [ChainInformationRef.validate, ChainInformationRef.ofChainInformation,
        hcons, finalityChecks, ChainInformationFinalityRef.ofFinality,
        HeaderRef.ofHeader, hnum, hsid, ht0, Nat.not_le.mpr hlt]
  · intro hdr cons
    cases hcc : consensusChecks (HeaderRef.ofHeader hdr)
        (ChainInformationConsensusRef.ofConsensus cons) with
    | error e =>
      simp only [HeaderRef.ofHeader] at hcc
      simp [ChainInformationRef.validate, ChainInformationRef.ofChainInformation,
        hcc, finalityChecks, ChainInformationFinalityRef.ofFinality,
        HeaderRef.ofHeader]
    | ok u =>
      cases u
      simp only [HeaderRef.ofHeader] at hcc
      simp [ChainInformationRef.validate, ChainInformationRef.ofChainInformation,
        hcc, finalityChecks, ChainInformationFinalityRef.ofFinality,
        HeaderRef.ofHeader]

/-- Witness for C9 at finalized height 10 with a scheduled change
triggering at height 10. -/
theorem grandpa_rules_witness :
    (ChainInformationRef.ofChainInformation
      { finalized_block_header :=
          { number := 10
            digest :=
              { aura_pre_runtime := false
                aura_seal := false
                has_any_babe := false
                babe_pre_runtime := none
                babe_seal := false
                has_any_aura := false
                babe_epoch_information := none } }
        consensus := ChainInformationConsensus.Unknown
        finality :=
          ChainInformationFinality.Grandpa 0 [] (some (10, [])) }).validate =
      Except.error ValidityError.ScheduledGrandPaChangeBeforeFinalized :=
  grandpa_rules.1 _ _ 0 [] 10 [] rfl (by decide)
